import Mathlib

/-!
Verification of the check-in kiosk application (app.py).

The application keeps two SQLite tables, `students` and `logins`, and a
single business-logic HTTP handler `checkin` that toggles a student's
attendance session.  We embed the database as lists of rows (in insertion
order, with an explicit `nextId` counter modelling the AUTOINCREMENT id
sequence of the `logins` table) and the handler as a pure function from a
store and a request to a new store and a response message.  Timestamps are
opaque strings supplied by the caller, standing for
`datetime.now().isoformat(timespec="seconds")`.
-/

namespace BridgeTroll

/-- A row of the `students` table:
`students(student_id TEXT PRIMARY KEY, first_name TEXT NOT NULL,
last_name TEXT NOT NULL, waiver_signed TEXT)`. -/
structure Student where
  student_id : String
  first_name : String
  last_name : String
  waiver_signed : String
deriving DecidableEq

/-- A row of the `logins` table:
`logins(id INTEGER PRIMARY KEY AUTOINCREMENT, student_id TEXT NOT NULL,
login_time TEXT, logout_time TEXT)`.  A NULL `logout_time` is `none`. -/
structure LoginRecord where
  id : Nat
  student_id : String
  login_time : String
  logout_time : Option String
deriving DecidableEq

/-- The persistent store: the two tables, plus the next AUTOINCREMENT id
for `logins`. -/
structure Store where
  students : List Student
  logins : List LoginRecord
  nextId : Nat
deriving DecidableEq

/-- Embeds `SELECT first_name, last_name, waiver_signed FROM students WHERE
student_id = ?` followed by `fetchone()`: the first row whose key matches. -/
def lookupStudent (students : List Student) (sid : String) : Option Student :=
  students.find? (fun s => s.student_id == sid)

/-- Embeds Python's `str.strip()`: drop leading and trailing whitespace. -/
def pyStrip (w : String) : String :=
  ⟨((w.data.dropWhile Char.isWhitespace).reverse.dropWhile
      Char.isWhitespace).reverse⟩

/-- Embeds the waiver gate `waiver_signed.strip() == "" or waiver_signed == "0"`
from the handler. -/
def waiverUnsigned (w : String) : Bool :=
  pyStrip w == "" || w == "0"

/-- Rows of `logins` belonging to one student (`WHERE student_id = ?`). -/
def sessionsFor (logins : List LoginRecord) (sid : String) : List LoginRecord :=
  logins.filter (fun r => r.student_id == sid)

/-- Open sessions of one student
(`WHERE student_id = ? AND logout_time IS NULL`). -/
def openFor (logins : List LoginRecord) (sid : String) : List LoginRecord :=
  logins.filter (fun r => r.student_id == sid && r.logout_time.isNone)

/-- Embeds `ORDER BY id DESC LIMIT 1` followed by `fetchone()`: the row with
the greatest id among the given rows, `none` when there is no row. -/
def maxIdRecord : List LoginRecord → Option LoginRecord
  | [] => none
  | r :: rs =>
    match maxIdRecord rs with
    | none => some r
    | some m => if m.id < r.id then some r else some m

/-- Embeds the open-session query of the handler:
`SELECT id FROM logins WHERE student_id = ? AND logout_time IS NULL
ORDER BY id DESC LIMIT 1`, `fetchone()`. -/
def findActiveSession (logins : List LoginRecord) (sid : String) :
    Option LoginRecord :=
  maxIdRecord (openFor logins sid)

/-- Effect on one row of `UPDATE logins SET logout_time = ? WHERE id = ?`. -/
def closeOne (target : Nat) (ts : String) (r : LoginRecord) : LoginRecord :=
  if r.id = target then { r with logout_time := some ts } else r

/-- Embeds `UPDATE logins SET logout_time = ? WHERE id = ?`: every row whose
id matches gets its logout time set, every other row is untouched. -/
def closeSession (logins : List LoginRecord) (target : Nat) (ts : String) :
    List LoginRecord :=
  logins.map (closeOne target ts)

/-- Embeds the `POST /checkin` handler `checkin()` of app.py.  The request
carries `request.form.get("student_id")`, an optional form field; when it is
absent the SQL lookup runs with a NULL parameter, which matches no row, so
the handler answers "Student ID not found".  `now` stands for the value of
`datetime.now().isoformat(timespec="seconds")` at this request.  The result
is the updated store and the `message` string of the JSON response body. -/
def checkin (store : Store) (sid? : Option String) (now : String) :
    Store × String :=
  match sid? with
  | none => (store, "Student ID not found")
  | some sid =>
    match lookupStudent store.students sid with
    | none => (store, "Student ID not found")
    | some s =>
      if waiverUnsigned s.waiver_signed then
        (store, s.first_name ++ " " ++ s.last_name ++
          " cannot check in - liability waiver")
      else
        match findActiveSession store.logins sid with
        | some r =>
          ({ store with logins := closeSession store.logins r.id now },
            s.first_name ++ " " ++ s.last_name ++ " checked OUT at " ++ now)
        | none =>
          ({ store with
              logins := store.logins ++
                [{ id := store.nextId, student_id := sid,
                   login_time := now, logout_time := none }],
              nextId := store.nextId + 1 },
            s.first_name ++ " " ++ s.last_name ++ " checked IN at " ++ now)

/-- The at-most-one-open-session invariant of the spec, per student. -/
def OpenInvariant (store : Store) : Prop :=
  ∀ sid, (openFor store.logins sid).length ≤ 1

/-- Concrete student fixture used by witnesses. -/
def aliceEx : Student :=
  { student_id := "12345", first_name := "Alice", last_name := "Smith",
    waiver_signed := "1" }

/-- Concrete student fixture with an unsigned waiver, used by witnesses. -/
def bobEx : Student :=
  { student_id := "22222", first_name := "Bob", last_name := "Jones",
    waiver_signed := "0" }

/-- Concrete store fixture used by witnesses: two students, no sessions. -/
def storeEx : Store :=
  { students := [aliceEx, bobEx], logins := [], nextId := 1 }

/-- Concrete logins fixture used by witnesses: two open sessions. -/
def loginsEx : List LoginRecord :=
  [{ id := 1, student_id := "12345", login_time := "t1", logout_time := none },
   { id := 2, student_id := "22222", login_time := "t2", logout_time := none }]

/-- Concrete store fixture used by witnesses: two students, each with one
open session. -/
def storeEx2 : Store :=
  { students := [aliceEx, bobEx], logins := loginsEx, nextId := 3 }

/-- Iterates the handler: one `/checkin` request per timestamp in the
list, all for the same student, in order. -/
def checkinN (store : Store) (sid : String) (times : List String) : Store :=
  times.foldl (fun st t => (checkin st (some sid) t).fst) store

/-- Key-existence test on the students table, as the PRIMARY KEY lookup of
`INSERT OR IGNORE` sees it. -/
def hasStudentId (students : List Student) (sid : String) : Bool :=
  students.any (fun t => t.student_id == sid)

/-- Embeds `INSERT OR IGNORE INTO students ...`: the row is appended unless
a row with the same `student_id` already exists, in which case the
statement does nothing. -/
def insertOrIgnore (students : List Student) (s : Student) : List Student :=
  if hasStudentId students s.student_id then students else students ++ [s]

/-- Embeds the per-row field extraction of `import_csv`: columns 0, 1, 3
and 10 of the data row, each passed through `strip()`.  Python raises an
IndexError on a row with fewer than 11 columns (the import then fails
loudly, as the spec says); the theorems therefore restrict to rows of
length at least 11, where `getD` agrees with Python's indexing. -/
def rowStudent (row : List String) : Student :=
  { student_id := pyStrip (row.getD 3 ""),
    first_name := pyStrip (row.getD 1 ""),
    last_name := pyStrip (row.getD 0 ""),
    waiver_signed := pyStrip (row.getD 10 "") }

/-- Embeds the loop of `import_csv` over the data rows of the file (the
header row already removed): one `INSERT OR IGNORE` per row, in order. -/
def importCsv (students : List Student) (rows : List (List String)) :
    List Student :=
  rows.foldl (fun db row => insertOrIgnore db (rowStudent row)) students

/-- Concrete CSV data row used by witnesses: 11 columns, id "12345",
waiver flag "1". -/
def csvRowEx : List String :=
  ["Smith", "Alice", "a", "12345", "b", "c", "d", "e", "f", "g", "1"]

/-! Helper lemmas about the handler. -/

/-- The handler never touches the `students` table, in any branch. -/
theorem checkin_students_eq (store : Store) (sid? : Option String)
    (now : String) : (checkin store sid? now).fst.students = store.students := by
  cases sid? with
  | none => rfl
  | some sid =>
    simp only [checkin]
    cases lookupStudent store.students sid with
    | none => rfl
    | some s =>
      by_cases hw : waiverUnsigned s.waiver_signed
      · simp [hw]
      · simp only [hw, Bool.false_eq_true, if_false]
        cases findActiveSession store.logins sid <;> rfl

/-- C9: every `/checkin` request leaves every row of the students table
unchanged; request handling only ever writes the logins table. -/
theorem checkin_never_mutates_students (store : Store) (sid? : Option String)
    (now : String) : (checkin store sid? now).fst.students = store.students :=
  checkin_students_eq store sid? now

/-- C10: a `POST /checkin` whose form data has no `student_id` field is
answered exactly like an unknown identifier: the message is
"Student ID not found" and the store is unchanged. -/
theorem checkin_no_field_not_found (store : Store) (now : String) :
    checkin store none now = (store, "Student ID not found") := rfl

/-- C5: an identifier matching no row of the students table gets response
body message "Student ID not found" and changes neither table. -/
theorem checkin_unknown_id (store : Store) (sid now : String)
    (h : lookupStudent store.students sid = none) :
    checkin store (some sid) now = (store, "Student ID not found") := by
  simp [checkin, h]

/-- Witness for C5 at a concrete input: id "99999" is not in the fixture
roster, so the request answers "Student ID not found" and keeps the store. -/
theorem checkin_unknown_id_witness :
    lookupStudent storeEx.students "99999" = none ∧
      checkin storeEx (some "99999") "2026-01-22T14:39:36" =
        (storeEx, "Student ID not found") :=
  ⟨by decide, checkin_unknown_id storeEx "99999" "2026-01-22T14:39:36"
    (by decide)⟩

/-- C4: a student whose waiver flag is the empty string or the literal "0"
is always refused with the liability-waiver message, and the whole store is
unchanged, so no login record is created. -/
theorem checkin_waiver_blocked (store : Store) (s : Student) (sid now : String)
    (h1 : lookupStudent store.students sid = some s)
    (h2 : s.waiver_signed = "" ∨ s.waiver_signed = "0") :
    checkin store (some sid) now =
      (store, s.first_name ++ " " ++ s.last_name ++
        " cannot check in - liability waiver") := by
  have hw : waiverUnsigned s.waiver_signed = true := by
    rcases h2 with h | h <;> rw [h] <;> decide
  simp [checkin, h1, hw]

/-- Witness for C4 at a concrete input: Bob has waiver flag "0" and is
refused, with the store unchanged. -/
theorem checkin_waiver_blocked_witness :
    lookupStudent storeEx.students "22222" = some bobEx ∧
      checkin storeEx (some "22222") "2026-01-22T14:39:36" =
        (storeEx, "Bob Jones cannot check in - liability waiver") :=
  ⟨by decide,
    checkin_waiver_blocked storeEx bobEx "22222" "2026-01-22T14:39:36"
      (by decide) (Or.inr (by decide))⟩

/-- C2: for a waiver-signed student with no open session, one `/checkin`
request appends exactly one new login record, with a null logout timestamp,
the request time as login time, and the next AUTOINCREMENT id; the response
message is "<first> <last> checked IN at <time>" where the time is exactly
the stored login time. -/
theorem checkin_opens_session (store : Store) (s : Student) (sid now : String)
    (h1 : lookupStudent store.students sid = some s)
    (h2 : waiverUnsigned s.waiver_signed = false)
    (h3 : findActiveSession store.logins sid = none) :
    checkin store (some sid) now =
      ({ students := store.students,
         logins := store.logins ++
           [{ id := store.nextId, student_id := sid,
              login_time := now, logout_time := none }],
         nextId := store.nextId + 1 },
       s.first_name ++ " " ++ s.last_name ++ " checked IN at " ++ now) := by
  simp [checkin, h1, h2, h3]

/-- Witness for C2 at a concrete input: Alice checks in on the empty store
and exactly one open record with her id and the request time appears. -/
theorem checkin_opens_session_witness :
    lookupStudent storeEx.students "12345" = some aliceEx ∧
      checkin storeEx (some "12345") "2026-01-22T14:39:36" =
        ({ students := storeEx.students,
           logins := [{ id := 1, student_id := "12345",
                        login_time := "2026-01-22T14:39:36",
                        logout_time := none }],
           nextId := 2 },
         "Alice Smith checked IN at 2026-01-22T14:39:36") :=
  ⟨by decide,
    checkin_opens_session storeEx aliceEx "12345" "2026-01-22T14:39:36"
      (by decide) (by decide) (by decide)⟩

/-- C8: the close operation used by the handler
(`UPDATE logins SET logout_time = ? WHERE id = ?`) keeps the table length,
sets the logout time of every row carrying the given id, and leaves every
row with a different id exactly as it was. -/
theorem closeSession_spec (l : List LoginRecord) (i : Nat) (ts : String) :
    (closeSession l i ts).length = l.length ∧
      ∀ (j : Nat) (hj : j < l.length) (hj2 : j < (closeSession l i ts).length),
        (closeSession l i ts).get ⟨j, hj2⟩ =
          (if (l.get ⟨j, hj⟩).id = i then
            { l.get ⟨j, hj⟩ with logout_time := some ts }
          else l.get ⟨j, hj⟩) := by
  refine ⟨by simp [closeSession], ?_⟩
  intro j hj hj2
  simp [closeSession, closeOne]

/-- Witness for C8 at a concrete input: on a two-row table, closing id 1
keeps the length, stamps row 0 with the timestamp and leaves row 1
untouched. -/
theorem closeSession_spec_witness :
    (closeSession loginsEx 1 "t3").length = loginsEx.length ∧
      (closeSession loginsEx 1 "t3").get ⟨0, by decide⟩ =
        { id := 1, student_id := "12345", login_time := "t1",
          logout_time := some "t3" } ∧
      (closeSession loginsEx 1 "t3").get ⟨1, by decide⟩ =
        { id := 2, student_id := "22222", login_time := "t2",
          logout_time := none } := by
  refine ⟨(closeSession_spec loginsEx 1 "t3").1, ?_, ?_⟩
  · rw [(closeSession_spec loginsEx 1 "t3").2 0 (by decide) (by decide)]
    decide
  · rw [(closeSession_spec loginsEx 1 "t3").2 1 (by decide) (by decide)]
    decide

/-! Lemmas about the most-recent-open-session query. -/

/-- The descending-order limit-one query returns nothing iff there is no
candidate row. -/
theorem maxIdRecord_eq_none_iff (l : List LoginRecord) :
    maxIdRecord l = none ↔ l = [] := by
  cases l with
  | nil => simp [maxIdRecord]
  | cons r rs =>
    constructor
    · intro h
      exfalso
      simp only [maxIdRecord] at h
      split at h
      · cases h
      · split at h <;> cases h
    · intro h
      cases h

/-- The descending-order limit-one query returns one of the rows. -/
theorem maxIdRecord_mem (l : List LoginRecord) (m : LoginRecord)
    (h : maxIdRecord l = some m) : m ∈ l := by
  induction l generalizing m with
  | nil => simp [maxIdRecord] at h
  | cons r rs ih =>
    simp only [maxIdRecord] at h
    split at h
    · cases h
      exact List.mem_cons_self r rs
    · next m2 heq =>
      split at h
      · cases h
        exact List.mem_cons_self r rs
      · cases h
        exact List.mem_cons_of_mem r (ih _ heq)

/-- The descending-order limit-one query returns a row of greatest id. -/
theorem maxIdRecord_ge (l : List LoginRecord) (m : LoginRecord)
    (h : maxIdRecord l = some m) : ∀ x ∈ l, x.id ≤ m.id := by
  induction l generalizing m with
  | nil => simp
  | cons r rs ih =>
    simp only [maxIdRecord] at h
    split at h
    · next heq =>
      cases h
      have hrs : rs = [] := (maxIdRecord_eq_none_iff rs).mp heq
      subst hrs
      intro x hx
      simp at hx
      subst hx
      exact Nat.le_refl _
    · next m2 heq =>
      split at h
      · next hlt =>
        cases h
        intro x hx
        rcases List.mem_cons.mp hx with rfl | hxrs
        · exact Nat.le_refl _
        · exact Nat.le_of_lt (Nat.lt_of_le_of_lt (ih _ heq x hxrs) hlt)
      · next hnlt =>
        cases h
        intro x hx
        rcases List.mem_cons.mp hx with rfl | hxrs
        · exact Nat.le_of_not_lt hnlt
        · exact ih _ heq x hxrs

/-- The open-session query finds a row iff the student has an open session. -/
theorem findActiveSession_eq_none_iff (l : List LoginRecord) (sid : String) :
    findActiveSession l sid = none ↔ openFor l sid = [] :=
  maxIdRecord_eq_none_iff (openFor l sid)

/-- The row found by the open-session query is an open session of maximal
id for the student. -/
theorem findActiveSession_spec (l : List LoginRecord) (sid : String)
    (r : LoginRecord) (h : findActiveSession l sid = some r) :
    r ∈ openFor l sid ∧ ∀ x ∈ openFor l sid, x.id ≤ r.id :=
  ⟨maxIdRecord_mem _ _ h, maxIdRecord_ge _ _ h⟩

/-! Lemmas about the close-by-id update. -/

/-- Closing an id that no row carries is a no-op. -/
theorem closeSession_eq_self (l : List LoginRecord) (i : Nat) (ts : String)
    (h : ∀ x ∈ l, x.id ≠ i) : closeSession l i ts = l := by
  induction l with
  | nil => rfl
  | cons a l ih =>
    have ha : a.id ≠ i := h a (by simp)
    have hl : closeSession l i ts = l := ih (fun x hx => h x (by simp [hx]))
    show closeOne i ts a :: closeSession l i ts = a :: l
    rw [hl]
    simp [closeOne, ha]

/-- With pairwise-distinct ids (the PRIMARY KEY guarantee), closing the id
of a row replaces exactly that row, at its position, and nothing else. -/
theorem closeSession_eq_set (l : List LoginRecord) (r : LoginRecord)
    (ts : String) (hnd : (l.map LoginRecord.id).Nodup) (hr : r ∈ l) :
    ∃ j, ∃ hj : j < l.length, l.get ⟨j, hj⟩ = r ∧
      closeSession l r.id ts = l.set j { r with logout_time := some ts } := by
  induction l with
  | nil => simp at hr
  | cons a l ih =>
    rw [List.map_cons, List.nodup_cons] at hnd
    rcases List.mem_cons.mp hr with hra | hrl
    · subst hra
      refine ⟨0, by simp, rfl, ?_⟩
      show closeOne r.id ts r :: closeSession l r.id ts = _
      have hnone : ∀ x ∈ l, x.id ≠ r.id := by
        intro x hx hxa
        exact hnd.1 (hxa ▸ List.mem_map_of_mem LoginRecord.id hx)
      rw [closeSession_eq_self l r.id ts hnone]
      simp [closeOne]
    · have hne : a.id ≠ r.id := by
        intro hai
        exact hnd.1 (hai ▸ List.mem_map_of_mem LoginRecord.id hrl)
      obtain ⟨j, hj, hget, heq⟩ := ih hnd.2 hrl
      refine ⟨j + 1, by simpa using Nat.succ_lt_succ hj, hget, ?_⟩
      show closeOne r.id ts a :: closeSession l r.id ts = _
      rw [heq]
      simp [closeOne, hne]

/-- C3: for a waiver-signed student with at least one open session, one
`/checkin` request picks the open session of highest auto-increment id,
sets exactly that row's logout timestamp (replacing it in place), inserts
no new login record, and answers
"<first> <last> checked OUT at <time>" with the stored logout time. -/
theorem checkin_closes_latest (store : Store) (s : Student) (sid now : String)
    (r : LoginRecord)
    (h1 : lookupStudent store.students sid = some s)
    (h2 : waiverUnsigned s.waiver_signed = false)
    (h3 : findActiveSession store.logins sid = some r)
    (h4 : (store.logins.map LoginRecord.id).Nodup) :
    r ∈ openFor store.logins sid ∧
      (∀ x ∈ openFor store.logins sid, x.id ≤ r.id) ∧
      (∃ j, ∃ hj : j < store.logins.length,
        store.logins.get ⟨j, hj⟩ = r ∧
          (checkin store (some sid) now).fst.logins =
            store.logins.set j { r with logout_time := some now }) ∧
      (checkin store (some sid) now).fst.logins.length =
        store.logins.length ∧
      (checkin store (some sid) now).snd =
        s.first_name ++ " " ++ s.last_name ++ " checked OUT at " ++ now := by
  obtain ⟨hmem, hmax⟩ := findActiveSession_spec store.logins sid r h3
  have hrl : r ∈ store.logins := List.mem_of_mem_filter hmem
  obtain ⟨j, hj, hget, hclose⟩ := closeSession_eq_set store.logins r now h4 hrl
  have hck : checkin store (some sid) now =
      ({ store with logins := closeSession store.logins r.id now },
        s.first_name ++ " " ++ s.last_name ++ " checked OUT at " ++ now) := by
    simp [checkin, h1, h2, h3]
  refine ⟨hmem, hmax, ⟨j, hj, hget, ?_⟩, ?_, ?_⟩
  · rw [hck]
    exact hclose
  · rw [hck]
    simp [closeSession]
  · rw [hck]

/-! Lemmas about open-session counts. -/

/-- Mapping a function that only ever falsifies the predicate cannot grow
the filtered length. -/
theorem length_filter_map_le {α : Type} (f : α → α) (p : α → Bool)
    (l : List α) (h : ∀ x, p (f x) = true → p x = true) :
    ((l.map f).filter p).length ≤ (l.filter p).length := by
  induction l with
  | nil => simp
  | cons a l ih =>
    simp only [List.map_cons, List.filter_cons]
    cases hfa : p (f a) with
    | false =>
      cases hpa : p a with
      | false => simpa using ih
      | true => simpa using Nat.le_succ_of_le ih
    | true =>
      have hpa := h a hfa
      simp only [hpa, if_true, List.length_cons]
      simpa using Nat.succ_le_succ ih

/-- Closing a session never increases any student's open-session count. -/
theorem openFor_closeSession_le (l : List LoginRecord) (i : Nat) (ts : String)
    (sid : String) :
    (openFor (closeSession l i ts) sid).length ≤ (openFor l sid).length := by
  apply length_filter_map_le
  intro x hx
  by_cases hxi : x.id = i
  · simp [closeOne, hxi] at hx
  · simpa [closeOne, hxi] using hx

/-- The open-session rows of an appended table split at the append. -/
theorem openFor_append (l₁ l₂ : List LoginRecord) (sid : String) :
    openFor (l₁ ++ l₂) sid = openFor l₁ sid ++ openFor l₂ sid :=
  List.filter_append l₁ l₂

/-- C1: on any store satisfying the at-most-one-open-session invariant, a
`/checkin` request preserves the invariant, and its effect on the logins
table is exactly one of: unchanged, closing an existing open session of the
requested student, or appending one open session for the requested student
where none existed. -/
theorem checkin_preserves_invariant (store : Store) (sid? : Option String)
    (now : String) (hInv : OpenInvariant store) :
    OpenInvariant (checkin store sid? now).fst ∧
      ((checkin store sid? now).fst.logins = store.logins ∨
        (∃ sid r, sid? = some sid ∧ r ∈ openFor store.logins sid ∧
          (checkin store sid? now).fst.logins =
            closeSession store.logins r.id now) ∨
        (∃ sid, sid? = some sid ∧ openFor store.logins sid = [] ∧
          (checkin store sid? now).fst.logins =
            store.logins ++
              [{ id := store.nextId, student_id := sid,
                 login_time := now, logout_time := none }])) := by
  cases sid? with
  | none => exact ⟨hInv, Or.inl rfl⟩
  | some sid =>
    cases h1 : lookupStudent store.students sid with
    | none =>
      have hck : checkin store (some sid) now =
          (store, "Student ID not found") := by simp [checkin, h1]
      exact ⟨by rw [hck]; exact hInv, Or.inl (by rw [hck])⟩
    | some s =>
      by_cases hw : waiverUnsigned s.waiver_signed
      · have hck : checkin store (some sid) now =
            (store, s.first_name ++ " " ++ s.last_name ++
              " cannot check in - liability waiver") := by
          simp [checkin, h1, hw]
        exact ⟨by rw [hck]; exact hInv, Or.inl (by rw [hck])⟩
      · rw [Bool.not_eq_true] at hw
        cases h3 : findActiveSession store.logins sid with
        | some r =>
          have hck : (checkin store (some sid) now).fst =
              { store with logins := closeSession store.logins r.id now } := by
            simp [checkin, h1, hw, h3]
          constructor
          · intro sid2
            rw [hck]
            exact Nat.le_trans (openFor_closeSession_le store.logins r.id now
              sid2) (hInv sid2)
          · exact Or.inr (Or.inl ⟨sid, r, rfl,
              (findActiveSession_spec store.logins sid r h3).1, by rw [hck]⟩)
        | none =>
          have hemp : openFor store.logins sid = [] :=
            (findActiveSession_eq_none_iff store.logins sid).mp h3
          have hck : (checkin store (some sid) now).fst =
              { store with
                logins := store.logins ++
                  [{ id := store.nextId, student_id := sid,
                     login_time := now, logout_time := none }],
                nextId := store.nextId + 1 } := by
            simp [checkin, h1, hw, h3]
          constructor
          · intro sid2
            rw [hck]
            show (openFor (store.logins ++ _) sid2).length ≤ 1
            rw [openFor_append, List.length_append]
            by_cases hs : sid = sid2
            · subst hs
              rw [hemp]
              simp [openFor]
            · have hne : (sid == sid2) = false := by
                simpa using hs
              have hone : openFor
                  [{ id := store.nextId, student_id := sid,
                     login_time := now, logout_time := none }] sid2 = [] := by
                simp [openFor, hne]
              rw [hone]
              simpa using hInv sid2
          · exact Or.inr (Or.inr ⟨sid, rfl, hemp, by rw [hck]⟩)

/-- Witness for C1 at a concrete input: the fixture store has no session at
all, so it satisfies the invariant, and it still does after Alice's
check-in request. -/
theorem checkin_preserves_invariant_witness :
    OpenInvariant storeEx ∧
      OpenInvariant (checkin storeEx (some "12345") "t0").fst :=
  have hinv : OpenInvariant storeEx := fun sid => by simp [storeEx, openFor]
  ⟨hinv, (checkin_preserves_invariant storeEx (some "12345") "t0" hinv).1⟩

/-- Witness for C3 at a concrete input: Alice has the open session with
id 1 in the fixture store; her check-out request stamps exactly that row
and answers with the stored logout time. -/
theorem checkin_closes_latest_witness :
    ({ id := 1, student_id := "12345", login_time := "t1",
       logout_time := none } : LoginRecord) ∈ openFor storeEx2.logins "12345" ∧
      (∀ x ∈ openFor storeEx2.logins "12345", x.id ≤ 1) ∧
      (∃ j, ∃ hj : j < storeEx2.logins.length,
        storeEx2.logins.get ⟨j, hj⟩ =
          { id := 1, student_id := "12345", login_time := "t1",
            logout_time := none } ∧
          (checkin storeEx2 (some "12345") "t9").fst.logins =
            storeEx2.logins.set j
              { id := 1, student_id := "12345", login_time := "t1",
                logout_time := some "t9" }) ∧
      (checkin storeEx2 (some "12345") "t9").fst.logins.length =
        storeEx2.logins.length ∧
      (checkin storeEx2 (some "12345") "t9").snd =
        "Alice Smith checked OUT at t9" :=
  checkin_closes_latest storeEx2 aliceEx "12345" "t9"
    { id := 1, student_id := "12345", login_time := "t1", logout_time := none }
    (by decide) (by decide) (by decide) (by decide)

/-! Lemmas for the alternating toggle count. -/

/-- The close-by-id update never changes a row's student. -/
theorem closeOne_student_id (i : Nat) (ts : String) (r : LoginRecord) :
    (closeOne i ts r).student_id = r.student_id := by
  simp only [closeOne]
  split <;> rfl

/-- Closing a session never changes how many login records a student has. -/
theorem sessionsFor_closeSession_length (l : List LoginRecord) (i : Nat)
    (ts sid : String) :
    (sessionsFor (closeSession l i ts) sid).length =
      (sessionsFor l sid).length := by
  simp only [sessionsFor, closeSession]
  induction l with
  | nil => rfl
  | cons a l ih =>
    simp only [List.map_cons, List.filter_cons, closeOne_student_id]
    cases hpa : (a.student_id == sid) with
    | false => simpa [hpa] using ih
    | true => simpa [hpa] using ih

/-- When a student's one open session is closed by its id, the student has
no open session left. -/
theorem openFor_closeSession_of_singleton (l : List LoginRecord)
    (r : LoginRecord) (ts sid : String) (h : openFor l sid = [r]) :
    openFor (closeSession l r.id ts) sid = [] := by
  show List.filter _ (closeSession l r.id ts) = []
  rw [List.filter_eq_nil_iff]
  intro x hx hpx
  obtain ⟨y, hy, rfl⟩ := List.mem_map.mp hx
  by_cases hyr : y.id = r.id
  · simp [closeOne, hyr] at hpx
  · rw [show closeOne r.id ts y = y from by simp [closeOne, hyr]] at hpx
    have hmem : y ∈ openFor l sid := List.mem_filter.mpr ⟨hy, hpx⟩
    rw [h] at hmem
    have hr : y = r := by simpa using hmem
    exact hyr (by rw [hr])

/-- When the student's open sessions are exactly one row, the open-session
query returns that row. -/
theorem findActiveSession_of_singleton (l : List LoginRecord)
    (r : LoginRecord) (sid : String) (h : openFor l sid = [r]) :
    findActiveSession l sid = some r := by
  show maxIdRecord (openFor l sid) = some r
  rw [h]
  rfl

/-- Appending a login record for the student adds it to the student's
session rows. -/
theorem sessionsFor_append_one (l : List LoginRecord) (rec : LoginRecord)
    (sid : String) (h : rec.student_id = sid) :
    sessionsFor (l ++ [rec]) sid = sessionsFor l sid ++ [rec] := by
  simp [sessionsFor, List.filter_append, h]

/-- Appending an open login record for the student adds it to the student's
open rows. -/
theorem openFor_append_one (l : List LoginRecord) (rec : LoginRecord)
    (sid : String) (h1 : rec.student_id = sid) (h2 : rec.logout_time = none) :
    openFor (l ++ [rec]) sid = openFor l sid ++ [rec] := by
  simp [openFor, List.filter_append, h1, h2]

/-- Counting invariant of the toggle: starting from `k` prior requests
worth of records (ceil((k+1)/2) rows, `k mod 2` of them open), a further
block of requests extends the counts the same way. -/
theorem checkinN_counts (s : Student) (sid : String)
    (hw : waiverUnsigned s.waiver_signed = false) :
    ∀ (ts : List String) (store : Store) (k : Nat),
      lookupStudent store.students sid = some s →
      (sessionsFor store.logins sid).length = (k + 1) / 2 →
      (openFor store.logins sid).length = k % 2 →
      (sessionsFor (checkinN store sid ts).logins sid).length =
        (k + ts.length + 1) / 2 ∧
      (openFor (checkinN store sid ts).logins sid).length =
        (k + ts.length) % 2 := by
  intro ts
  induction ts with
  | nil =>
    intro store k h1 hT hO
    constructor
    · simpa using hT
    · simpa using hO
  | cons t ts ih =>
    intro store k h1 hT hO
    have hstep : checkinN store sid (t :: ts) =
        checkinN (checkin store (some sid) t).fst sid ts := rfl
    have h1b : lookupStudent (checkin store (some sid) t).fst.students sid =
        some s := by
      rw [checkin_students_eq store (some sid) t]
      exact h1
    rcases Nat.mod_two_eq_zero_or_one k with hk | hk
    · have hemp : openFor store.logins sid = [] := by
        rw [hk] at hO
        exact List.length_eq_zero.mp hO
      have h3 : findActiveSession store.logins sid = none :=
        (findActiveSession_eq_none_iff store.logins sid).mpr hemp
      have hck : (checkin store (some sid) t).fst =
          { store with
            logins := store.logins ++
              [{ id := store.nextId, student_id := sid,
                 login_time := t, logout_time := none }],
            nextId := store.nextId + 1 } := by
        simp [checkin, h1, hw, h3]
      have hlog : (checkin store (some sid) t).fst.logins =
          store.logins ++
            [{ id := store.nextId, student_id := sid,
               login_time := t, logout_time := none }] := by
        rw [hck]
      have hTb : (sessionsFor (checkin store (some sid) t).fst.logins
          sid).length = (k + 1 + 1) / 2 := by
        rw [hlog, sessionsFor_append_one _ _ sid rfl, List.length_append, hT]
        simp only [List.length_cons, List.length_nil]
        omega
      have hOb : (openFor (checkin store (some sid) t).fst.logins
          sid).length = (k + 1) % 2 := by
        rw [hlog, openFor_append_one _ _ sid rfl rfl, hemp]
        simp only [List.nil_append, List.length_cons, List.length_nil]
        omega
      obtain ⟨hT2, hO2⟩ := ih (checkin store (some sid) t).fst (k + 1) h1b
        hTb hOb
      rw [hstep]
      constructor
      · rw [hT2, List.length_cons]
        omega
      · rw [hO2, List.length_cons]
        omega
    · have hone : ∃ r, openFor store.logins sid = [r] := by
        rw [hk] at hO
        exact List.length_eq_one.mp hO
      obtain ⟨r, hr⟩ := hone
      have h3 : findActiveSession store.logins sid = some r :=
        findActiveSession_of_singleton store.logins r sid hr
      have hck : (checkin store (some sid) t).fst =
          { store with logins := closeSession store.logins r.id t } := by
        simp [checkin, h1, hw, h3]
      have hlog : (checkin store (some sid) t).fst.logins =
          closeSession store.logins r.id t := by
        rw [hck]
      have hTb : (sessionsFor (checkin store (some sid) t).fst.logins
          sid).length = (k + 1 + 1) / 2 := by
        rw [hlog, sessionsFor_closeSession_length, hT]
        omega
      have hOb : (openFor (checkin store (some sid) t).fst.logins
          sid).length = (k + 1) % 2 := by
        rw [hlog, openFor_closeSession_of_singleton store.logins r t sid hr]
        simp only [List.length_nil]
        omega
      obtain ⟨hT2, hO2⟩ := ih (checkin store (some sid) t).fst (k + 1) h1b
        hTb hOb
      rw [hstep]
      constructor
      · rw [hT2, List.length_cons]
        omega
      · rw [hO2, List.length_cons]
        omega

/-- C6: starting with no session rows at all, N consecutive `/checkin`
requests for a waiver-signed student leave exactly ceil(N/2) login records
for that student, of which N mod 2 are open: all closed when N is even, and
exactly one open when N is odd.  `checkinN` is a function of the starting
store and the request sequence, so replaying the same sequence from the
same state reproduces the same counts. -/
theorem checkin_toggle_counts (store : Store) (s : Student) (sid : String)
    (ts : List String)
    (h1 : lookupStudent store.students sid = some s)
    (h2 : waiverUnsigned s.waiver_signed = false)
    (h3 : sessionsFor store.logins sid = []) :
    (sessionsFor (checkinN store sid ts).logins sid).length =
      (ts.length + 1) / 2 ∧
      (openFor (checkinN store sid ts).logins sid).length = ts.length % 2 := by
  have hOnil : openFor store.logins sid = [] := by
    show List.filter _ store.logins = []
    rw [List.filter_eq_nil_iff]
    intro x hx hpx
    rw [Bool.and_eq_true] at hpx
    have hin : x ∈ sessionsFor store.logins sid :=
      List.mem_filter.mpr ⟨hx, hpx.1⟩
    rw [h3] at hin
    simp at hin
  have hO : (openFor store.logins sid).length = 0 % 2 := by
    rw [hOnil]
    rfl
  have hT : (sessionsFor store.logins sid).length = (0 + 1) / 2 := by
    rw [h3]
    rfl
  have h := checkinN_counts s sid h2 ts store 0 h1 hT hO
  have hc1 := h.1
  have hc2 := h.2
  constructor
  · omega
  · omega

/-- Witness for C6 at a concrete input: three consecutive requests for
Alice on the fresh fixture store leave two login records for her, exactly
one of them still open. -/
theorem checkin_toggle_counts_witness :
    (sessionsFor (checkinN storeEx "12345" ["t1", "t2", "t3"]).logins
      "12345").length = 2 ∧
      (openFor (checkinN storeEx "12345" ["t1", "t2", "t3"]).logins
        "12345").length = 1 :=
  checkin_toggle_counts storeEx aliceEx "12345" ["t1", "t2", "t3"]
    (by decide) (by decide) (by decide)

/-! Lemmas for the roster-import idempotence. -/

/-- After `INSERT OR IGNORE` of a row, its key exists in the table. -/
theorem insertOrIgnore_hasId_self (db : List Student) (s : Student) :
    hasStudentId (insertOrIgnore db s) s.student_id = true := by
  unfold insertOrIgnore
  split
  · next h => exact h
  · simp [hasStudentId, List.any_append]

/-- `INSERT OR IGNORE` never removes an existing key. -/
theorem insertOrIgnore_hasId_mono (db : List Student) (s : Student)
    (sid : String) (h : hasStudentId db sid = true) :
    hasStudentId (insertOrIgnore db s) sid = true := by
  unfold insertOrIgnore
  split
  · exact h
  · show List.any _ _ = true
    rw [List.any_append]
    show (hasStudentId db sid || _) = true
    rw [h]
    rfl

/-- The roster import never removes an existing key. -/
theorem importCsv_hasId_mono (rows : List (List String)) (db : List Student)
    (sid : String) (h : hasStudentId db sid = true) :
    hasStudentId (importCsv db rows) sid = true := by
  induction rows generalizing db with
  | nil => exact h
  | cons row rows ih => exact ih _ (insertOrIgnore_hasId_mono db _ sid h)

/-- After a roster import, the key of every imported row exists. -/
theorem importCsv_hasId_all (rows : List (List String)) (db : List Student) :
    ∀ row ∈ rows,
      hasStudentId (importCsv db rows) (rowStudent row).student_id = true := by
  induction rows generalizing db with
  | nil => simp
  | cons row rows ih =>
    intro row2 hrow2
    rcases List.mem_cons.mp hrow2 with rfl | hmem
    · exact importCsv_hasId_mono rows _ _
        (insertOrIgnore_hasId_self db (rowStudent row2))
    · exact ih _ row2 hmem

/-- `INSERT OR IGNORE` of an existing key does nothing. -/
theorem insertOrIgnore_skip (db : List Student) (s : Student)
    (h : hasStudentId db s.student_id = true) : insertOrIgnore db s = db := by
  simp [insertOrIgnore, h]

/-- A roster import in which every row's key already exists does nothing. -/
theorem importCsv_eq_self (rows : List (List String)) (db : List Student)
    (h : ∀ row ∈ rows, hasStudentId db (rowStudent row).student_id = true) :
    importCsv db rows = db := by
  induction rows with
  | nil => rfl
  | cons row rows ih =>
    show importCsv (insertOrIgnore db (rowStudent row)) rows = db
    rw [insertOrIgnore_skip db _ (h row (by simp))]
    exact ih (fun r hr => h r (List.mem_cons_of_mem row hr))

/-- C7: running the roster import a second time with the same file leaves
the students table exactly as after the first run, row count and contents
included: every row's identifier already exists, so every insert is
skipped.  Rows are restricted to at least 11 columns, where the embedding
agrees with Python's fixed-offset indexing. -/
theorem importCsv_idempotent (students : List Student)
    (rows : List (List String)) (_hwf : ∀ row ∈ rows, 11 ≤ row.length) :
    importCsv (importCsv students rows) rows = importCsv students rows :=
  importCsv_eq_self rows (importCsv students rows)
    (fun row hrow => importCsv_hasId_all rows students row hrow)

/-- Witness for C7 at a concrete input: importing the one-row fixture file
twice over the empty table equals importing it once. -/
theorem importCsv_idempotent_witness :
    (∀ row ∈ [csvRowEx], 11 ≤ row.length) ∧
      importCsv (importCsv [] [csvRowEx]) [csvRowEx] =
        importCsv [] [csvRowEx] :=
  ⟨by decide, importCsv_idempotent [] [csvRowEx] (by decide)⟩

end BridgeTroll
